import Mathlib

/-!
Verification development for the percentile/college-suggestion core of the
repository (file `src/utils.py`).  The two functions under study are
`calculate_percentile(marks, historical_data)` and
`suggest_colleges(percentile, category, college_data)`.

Embedding notes, recorded so each definition can be diffed against the source:

* Numbers are modelled as `ℚ`.  Python's `round(x, 2)` is round-half-to-even
  on binary floats; the model uses `round` (round-half-up) applied to
  `x * 100`, divided by 100.  No claim in this development depends on the
  tie-breaking direction of the rounding, and no input in any witness sits on
  a .005 tie, so the two agree on everything proved here.
* `float(marks)` either succeeds (numeric input) or raises `ValueError`
  (malformed input).  A score is therefore either `ScoreInput.num q` or
  `ScoreInput.malformed s`.
* `historical_data['marks']` raises `KeyError` when the column is absent, so a
  historical dataset is `Option (List ℚ)`: `some` the column of marks values,
  `none` a frame without a `marks` column.
* Both Python functions wrap their whole body in `try/except Exception`, print
  the error and return a sentinel (`None`, resp. an empty `DataFrame`).  Each
  is embedded as a `_body` function in the `Except PyErr` monad (the
  exceptions the body can actually raise) plus an outer function performing
  the catch.
* `college_data[cutoff_col] <= percentile` filter keeps the rows whose cutoff
  is at most the percentile; `college_data[cutoff_col]` with an unknown column
  name raises `KeyError` before any row is looked at.
* `DataFrame.sort_values(by=col, ascending=False)` (pandas, default
  `kind='quicksort'`) computes an ascending argsort of the column and then
  reverses the resulting indexer (`pandas.core.sorting.nargsort`:
  `indexer = non_nan_idx[non_nans.argsort(kind=kind)]; if not ascending:
  indexer = indexer[::-1]`).  numpy's introsort runs plain insertion sort on
  arrays shorter than 16 elements, where it is stable, which covers the table
  sizes this repository ships and every concrete input used below.  The sort
  is therefore embedded as a stable ascending insertion sort followed by
  `List.reverse`: rows with equal cutoffs come out in reversed input order,
  not in input order.
-/

namespace MarksPercentile

/-- Exceptions the embedded bodies can raise. -/
inductive PyErr where
  | valueError : String → PyErr
  | keyError : String → PyErr
  deriving DecidableEq

/-- A score argument as received by `calculate_percentile`: either a value
`float()` accepts, or a malformed one on which `float()` raises. -/
inductive ScoreInput where
  | num : ℚ → ScoreInput
  | malformed : String → ScoreInput
  deriving DecidableEq

/-- The historical DataFrame, reduced to what the source reads from it:
its `marks` column (`none` when the column is missing). -/
structure HistDataset where
  marks : Option (List ℚ)
  deriving DecidableEq

/-- `float(marks)`: identity on numeric input, `ValueError` otherwise. -/
def parseFloat : ScoreInput → Except PyErr ℚ
  | .num q => .ok q
  | .malformed s => .error (.valueError s)

/-- `round(x, 2)` of the source, over `ℚ` (see the embedding notes on the
rounding mode). -/
def round2 (q : ℚ) : ℚ := (round (q * 100) : ℚ) / 100

/-- Body of `calculate_percentile` (the region inside the `try:`), from
src/utils.py lines 7-25: parse the score, read the `marks` column, count the
strictly smaller entries, divide by the total, scale to 100, clamp to
`[0, 99.99]` via `min(99.99, max(0, percentile))`, round to 2 decimals; a
zero-length column falls through to `return None`. -/
def calculate_percentile_body (marks : ScoreInput) (historical_data : HistDataset) :
    Except PyErr (Option ℚ) :=
  match parseFloat marks with
  | .error e => .error e
  | .ok m =>
    match historical_data.marks with
    | none => .error (.keyError "marks")
    | some historical_marks =>
      let students_below := historical_marks.countP (fun x => decide (x < m))
      let total_students := historical_marks.length
      if 0 < total_students then
        .ok (some (round2 (min 99.99 (max 0
          (((students_below : ℚ) / (total_students : ℚ)) * 100)))))
      else
        .ok none

/-- `calculate_percentile` of src/utils.py: the body wrapped in
`try/except Exception` that prints and returns `None`. -/
def calculate_percentile (marks : ScoreInput) (historical_data : HistDataset) :
    Option ℚ :=
  match calculate_percentile_body marks historical_data with
  | .ok r => r
  | .error _ => none

/-- One row of the colleges DataFrame, reduced to the columns the source
reads: the three text columns and the four per-category cutoff columns. -/
structure CollegeRecord where
  college_name : String
  branch : String
  city : String
  cutoff_general : ℚ
  cutoff_obc : ℚ
  cutoff_sc : ℚ
  cutoff_st : ℚ
  deriving DecidableEq

/-- The projection `[['college_name', 'branch', cutoff_col, 'city']]`
returned by `suggest_colleges`. -/
structure CollegeProj where
  college_name : String
  branch : String
  cutoff : ℚ
  city : String
  deriving DecidableEq

/-- `category.lower()` of the source: per-character lowercasing of the
string (this is `String.toLower`, written as a structural map over the
character list so that concrete instances reduce). -/
def pyLower (s : String) : String := ⟨s.data.map Char.toLower⟩

/-- Column lookup `college_data[col]` for the cutoff columns: the accessor
for a present column, `none` (a `KeyError`) for any other string. -/
def cutoffField (col : String) : Option (CollegeRecord → ℚ) :=
  if col = "cutoff_general" then some (fun c => c.cutoff_general)
  else if col = "cutoff_obc" then some (fun c => c.cutoff_obc)
  else if col = "cutoff_sc" then some (fun c => c.cutoff_sc)
  else if col = "cutoff_st" then some (fun c => c.cutoff_st)
  else none

/-- `sort_values(by=cutoff_col, ascending=False)` as pandas executes it on
the small frames at hand: a stable ascending argsort of the key followed by a
reversal of the indexer (see the embedding notes). -/
def pandasSortDesc (key : CollegeRecord → ℚ) (l : List CollegeRecord) :
    List CollegeRecord :=
  (List.insertionSort (fun a b => key a ≤ key b) l).reverse

/-- Row projection onto `(college_name, branch, cutoff_<category>, city)`. -/
def projectRow (key : CollegeRecord → ℚ) (c : CollegeRecord) : CollegeProj :=
  { college_name := c.college_name, branch := c.branch, cutoff := key c,
    city := c.city }

/-- Body of `suggest_colleges` (the region inside the `try:`), from
src/utils.py lines 34-50: lower-case the category, build the column name
`cutoff_<category>`, index the frame by it (raising `KeyError` for an
unrecognized category), keep the rows whose cutoff is `≤ percentile`, sort
descending by the cutoff column, and project the display columns. -/
def suggest_colleges_body (percentile : ℚ) (category : String)
    (college_data : List CollegeRecord) : Except PyErr (List CollegeProj) :=
  let cat := pyLower category
  let cutoff_col := "cutoff_" ++ cat
  match cutoffField cutoff_col with
  | none => .error (.keyError cutoff_col)
  | some key =>
    let eligible_colleges := college_data.filter (fun c => decide (key c ≤ percentile))
    let eligible_colleges := pandasSortDesc key eligible_colleges
    .ok (eligible_colleges.map (projectRow key))

/-- `suggest_colleges` of src/utils.py: the body wrapped in
`try/except Exception` that prints and returns an empty `DataFrame`. -/
def suggest_colleges (percentile : ℚ) (category : String)
    (college_data : List CollegeRecord) : Except PyErr (List CollegeProj) :=
  match suggest_colleges_body percentile category college_data with
  | .ok r => .ok r
  | .error _ => .ok []

/-- The four category strings whose cutoff column exists in the dataset. -/
def recognizedCategories : List String := ["general", "obc", "sc", "st"]

/-- The clamped-and-rounded percentile the body computes on a non-empty
marks column (the pure numeric core shared by several proofs below). -/
def percentileCore (m : ℚ) (marksCol : List ℚ) : ℚ :=
  round2 (min 99.99 (max 0
    (((marksCol.countP (fun x => decide (x < m)) : ℚ) / (marksCol.length : ℚ)) * 100)))

/-!
State-passing variants for the frame claim.  The datasets are the only state
either function touches; each read is modelled as returning the value
together with the post-read state, so that "the dataset is unchanged by a
call" is expressible rather than assumed.
-/

/-- Reading `historical_data['marks'].values`: yields the column (or a
`KeyError`) together with the dataset as the read leaves it. -/
def readMarksColumn (hd : HistDataset) : Except PyErr (List ℚ) × HistDataset :=
  (match hd.marks with
   | some l => Except.ok l
   | none => Except.error (PyErr.keyError "marks"), hd)

/-- `calculate_percentile` with the dataset threaded through every access,
following the statement order of the source (parse the score first, then
read the column, then compute). -/
def calculate_percentile_run (marks : ScoreInput) (hd : HistDataset) :
    Option ℚ × HistDataset :=
  match parseFloat marks with
  | .error _ => (none, hd)
  | .ok m =>
    match readMarksColumn hd with
    | (.error _, hd1) => (none, hd1)
    | (.ok historical_marks, hd1) =>
      let students_below := historical_marks.countP (fun x => decide (x < m))
      let total_students := historical_marks.length
      if 0 < total_students then
        (some (round2 (min 99.99 (max 0
          (((students_below : ℚ) / (total_students : ℚ)) * 100)))), hd1)
      else
        (none, hd1)

/-- The `.copy()` the source takes before sorting: a value copy, so the sort
operates on a frame distinct from the caller's. -/
def copyFrame (db : List CollegeRecord) : List CollegeRecord := db

/-- `suggest_colleges` with the college dataset threaded through: the filter
reads the frame, the explicit `.copy()` is what gets sorted and projected,
and the original frame is what the call leaves behind. -/
def suggest_colleges_run (percentile : ℚ) (category : String)
    (college_data : List CollegeRecord) :
    Except PyErr (List CollegeProj) × List CollegeRecord :=
  let cutoff_col := "cutoff_" ++ pyLower category
  match cutoffField cutoff_col with
  | none => (Except.ok [], college_data)
  | some key =>
    let eligible := copyFrame (college_data.filter (fun c => decide (key c ≤ percentile)))
    let sorted := pandasSortDesc key eligible
    (Except.ok (sorted.map (projectRow key)), college_data)

/-- Decidable equality on the embedded result type of `suggest_colleges`,
used to evaluate it on concrete inputs. -/
instance : DecidableEq (Except PyErr (List CollegeProj)) := fun a b =>
  match a, b with
  | .ok x, .ok y =>
    if h : x = y then .isTrue (by rw [h]) else .isFalse (by simp [h])
  | .error e, .error f =>
    if h : e = f then .isTrue (by rw [h]) else .isFalse (by simp [h])
  | .ok _, .error _ => .isFalse (by simp)
  | .error _, .ok _ => .isFalse (by simp)

/-!
Helper lemmas.
-/

/-- Evaluation rule for `round2` when the scaled value is an integer. -/
lemma round2_of_mul_int {q : ℚ} {n : ℤ} (h : q * 100 = (n : ℚ)) :
    round2 q = (n : ℚ) / 100 := by
  rw [round2, h, round_intCast]

/-- The rounding step is monotone. -/
lemma round2_mono {a b : ℚ} (h : a ≤ b) : round2 a ≤ round2 b := by
  rw [round2, round2]
  have hr : round (a * 100) ≤ round (b * 100) := by
    rw [round_eq, round_eq]
    exact Int.floor_mono (by linarith)
  have hc : ((round (a * 100) : ℤ) : ℚ) ≤ ((round (b * 100) : ℤ) : ℚ) := by
    exact_mod_cast hr
  linarith

/-- On a non-empty marks column and a numeric score the function returns
`some` of the clamped-and-rounded core value. -/
lemma calc_eq_core (m : ℚ) (H : List ℚ) (h : H ≠ []) :
    calculate_percentile (.num m) ⟨some H⟩ = some (percentileCore m H) := by
  have hl : 0 < H.length := List.length_pos.mpr h
  simp [calculate_percentile, calculate_percentile_body, parseFloat, percentileCore, hl]

/-- The core value is always within `[0, 99.99]`. -/
lemma percentileCore_bounds (m : ℚ) (H : List ℚ) :
    0 ≤ percentileCore m H ∧ percentileCore m H ≤ 99.99 := by
  constructor
  · have h0 : round2 0 = 0 := by
      rw [round2_of_mul_int (n := 0) (by norm_num)]; norm_num
    have : (0 : ℚ) ≤ min 99.99 (max 0
        (((H.countP (fun x => decide (x < m)) : ℚ) / (H.length : ℚ)) * 100)) :=
      le_min (by norm_num) (le_max_left _ _)
    calc (0 : ℚ) = round2 0 := h0.symm
    _ ≤ _ := round2_mono this
  · have h99 : round2 99.99 = 99.99 := by
      rw [round2_of_mul_int (n := 9999) (by norm_num)]; norm_num
    calc percentileCore m H ≤ round2 99.99 := round2_mono (min_le_left _ _)
    _ = 99.99 := h99

/-- Cancelling a common prefix of a string concatenation. -/
lemma string_append_cancel {a b : String} (pre : String) (h : pre ++ a = pre ++ b) :
    a = b := by
  apply String.ext
  have hdata := congrArg String.data h
  simp only [String.data_append] at hdata
  exact List.append_cancel_left hdata

/-- A recognized category always resolves to a cutoff accessor. -/
lemma cutoffField_of_recognized {cat : String} (h : cat ∈ recognizedCategories) :
    ∃ key, cutoffField ("cutoff_" ++ cat) = some key := by
  simp only [recognizedCategories, List.mem_cons, List.not_mem_nil, or_false] at h
  rcases h with h | h | h | h <;> subst h <;> exact ⟨_, rfl⟩

/-- An unrecognized category resolves to no column: the lookup is a
`KeyError`. -/
lemma cutoffField_of_unrecognized {cat : String} (h : cat ∉ recognizedCategories) :
    cutoffField ("cutoff_" ++ cat) = none := by
  simp only [recognizedCategories, List.mem_cons, List.not_mem_nil, or_false, not_or] at h
  obtain ⟨h1, h2, h3, h4⟩ := h
  rw [cutoffField, if_neg, if_neg, if_neg, if_neg]
  · intro heq
    exact h4 (string_append_cancel "cutoff_" (heq.trans (by decide)))
  · intro heq
    exact h3 (string_append_cancel "cutoff_" (heq.trans (by decide)))
  · intro heq
    exact h2 (string_append_cancel "cutoff_" (heq.trans (by decide)))
  · intro heq
    exact h1 (string_append_cancel "cutoff_" (heq.trans (by decide)))

/-- Inserting into a list moves past exactly the strictly smaller keys, so
the sublist of entries whose key equals any fixed `k` either gains the new
element at its front (when the new key is `k`) or is untouched. -/
lemma filter_key_orderedInsert {α : Type} (key : α → ℚ) (k : ℚ) (x : α) (l : List α) :
    (List.orderedInsert (fun a b => key a ≤ key b) x l).filter
        (fun a => decide (key a = k)) =
      if key x = k then x :: l.filter (fun a => decide (key a = k))
      else l.filter (fun a => decide (key a = k)) := by
  induction l with
  | nil =>
    by_cases hx : key x = k <;> simp [List.orderedInsert, hx]
  | cons y ys ih =>
    by_cases hxy : key x ≤ key y
    · have hstep : List.orderedInsert (fun a b => key a ≤ key b) x (y :: ys) =
          x :: y :: ys := by
        simp only [List.orderedInsert, if_pos hxy]
      rw [hstep]
      by_cases hx : key x = k <;> by_cases hy : key y = k <;>
        simp [List.filter_cons, hx, hy]
    · have hyx : key y < key x := lt_of_not_le hxy
      have hstep : List.orderedInsert (fun a b => key a ≤ key b) x (y :: ys) =
          y :: List.orderedInsert (fun a b => key a ≤ key b) x ys := by
        simp only [List.orderedInsert, if_neg hxy]
      rw [hstep]
      by_cases hy : key y = k
      · have hx : ¬ key x = k := by
          intro hc
          rw [hy, hc] at hyx
          exact absurd hyx (lt_irrefl k)
        simp [List.filter_cons, hy, hx, ih]
      · simp [List.filter_cons, hy, ih]

/-- Stability of the ascending insertion sort: for every key value `k`, the
entries with key `k` come out in exactly their input order. -/
lemma filter_key_insertionSort {α : Type} (key : α → ℚ) (k : ℚ) (l : List α) :
    (List.insertionSort (fun a b => key a ≤ key b) l).filter
        (fun a => decide (key a = k)) =
      l.filter (fun a => decide (key a = k)) := by
  induction l with
  | nil => rfl
  | cons x xs ih =>
    simp only [List.insertionSort]
    rw [filter_key_orderedInsert]
    by_cases hx : key x = k <;> simp [hx, List.filter_cons, ih]

/-- The embedded pandas descending sort is non-strictly descending in the
key. -/
lemma pandasSortDesc_pairwise (key : CollegeRecord → ℚ) (l : List CollegeRecord) :
    (pandasSortDesc key l).Pairwise (fun a b => key b ≤ key a) := by
  unfold pandasSortDesc
  rw [List.pairwise_reverse]
  haveI : IsTotal CollegeRecord (fun a b => key a ≤ key b) :=
    ⟨fun a b => le_total (key a) (key b)⟩
  haveI : IsTrans CollegeRecord (fun a b => key a ≤ key b) :=
    ⟨fun a b c h1 h2 => le_trans h1 h2⟩
  exact List.sorted_insertionSort _ l

/-- Membership in the embedded pandas descending sort is membership in the
input. -/
lemma mem_pandasSortDesc {key : CollegeRecord → ℚ} {l : List CollegeRecord}
    {c : CollegeRecord} (h : c ∈ pandasSortDesc key l) : c ∈ l := by
  unfold pandasSortDesc at h
  rw [List.mem_reverse] at h
  exact (List.perm_insertionSort _ l).mem_iff.mp h

/-- The key-`k` entries of the embedded pandas descending sort are the
key-`k` entries of the input in reversed order. -/
lemma filter_key_pandasSortDesc (key : CollegeRecord → ℚ) (k : ℚ)
    (l : List CollegeRecord) :
    (pandasSortDesc key l).filter (fun a => decide (key a = k)) =
      (l.filter (fun a => decide (key a = k))).reverse := by
  unfold pandasSortDesc
  rw [List.filter_reverse, filter_key_insertionSort]

/-!
Claim theorems.
-/

/-- C4: for every numeric score `s` and non-empty marks column `H`,
`calculate_percentile` returns `round(clamp((n_below / N) * 100), 2)` where
`n_below` counts the records strictly below `s` and `N` is the record
count. -/
theorem C4_percentile_formula (s : ℚ) (H : List ℚ) (h : H ≠ []) :
    calculate_percentile (.num s) ⟨some H⟩ =
      some (round2 (min 99.99 (max 0
        (((H.countP (fun x => decide (x < s)) : ℚ) / (H.length : ℚ)) * 100)))) :=
  calc_eq_core s H h

/-- C4 witness: the marks column `[100, 150, 200, 250]` with score `150`
yields `25.00`. -/
theorem C4_witness :
    ([100, 150, 200, 250] : List ℚ) ≠ [] ∧
    calculate_percentile (.num 150) ⟨some [100, 150, 200, 250]⟩ = some 25 := by
  constructor
  · decide
  · have h := C4_percentile_formula 150 [100, 150, 200, 250] (by decide)
    rw [h]
    norm_num [List.countP_cons, List.countP_nil, min_def, max_def]
    rw [round2_of_mul_int (n := 2500) (by norm_num)]
    norm_num

/-- C5: on every numeric score and non-empty marks column the result lies in
`[0, 99.99]`; a score below every record gives exactly `0.00`, and a score
above every record gives exactly `99.99` (the raw `100.0` is clamped). -/
theorem C5_clamped_range (s : ℚ) (H : List ℚ) (h : H ≠ []) :
    (∃ p, calculate_percentile (.num s) ⟨some H⟩ = some p ∧ 0 ≤ p ∧ p ≤ 99.99) ∧
    ((∀ m ∈ H, s < m) → calculate_percentile (.num s) ⟨some H⟩ = some 0) ∧
    ((∀ m ∈ H, m < s) → calculate_percentile (.num s) ⟨some H⟩ = some 99.99) := by
  have hcore := calc_eq_core s H h
  refine ⟨⟨percentileCore s H, hcore, (percentileCore_bounds s H).1,
    (percentileCore_bounds s H).2⟩, ?_, ?_⟩
  · intro hbelow
    rw [hcore]
    have hcount : H.countP (fun x => decide (x < s)) = 0 := by
      rw [List.countP_eq_zero]
      intro a ha
      simp only [decide_eq_true_eq]
      exact not_lt_of_gt (hbelow a ha)
    unfold percentileCore
    rw [hcount]
    norm_num [min_def, max_def]
    rw [round2_of_mul_int (n := 0) (by norm_num)]
    norm_num
  · intro habove
    rw [hcore]
    have hcount : H.countP (fun x => decide (x < s)) = H.length := by
      rw [List.countP_eq_length]
      intro a ha
      simp only [decide_eq_true_eq]
      exact habove a ha
    unfold percentileCore
    rw [hcount]
    have hlen0 : H.length ≠ 0 := Nat.pos_iff_ne_zero.mp (List.length_pos.mpr h)
    have hlen : (H.length : ℚ) ≠ 0 := by exact_mod_cast hlen0
    rw [div_self hlen]
    norm_num [min_def, max_def]
    rw [round2_of_mul_int (n := 9999) (by norm_num)]
    norm_num

/-- C5 witness: instantiation at score 150 over `[100, 150, 200, 250]`. -/
theorem C5_witness :
    ∃ p, calculate_percentile (.num 150) ⟨some [100, 150, 200, 250]⟩ = some p ∧
      0 ≤ p ∧ p ≤ 99.99 :=
  (C5_clamped_range 150 [100, 150, 200, 250] (by decide)).1

/-- C7: the percentile is monotone in the score on every non-empty marks
column: `s1 < s2` implies the first result is at most the second. -/
theorem C7_monotone_in_score (H : List ℚ) (s1 s2 : ℚ) (hH : H ≠ [])
    (hs : s1 < s2) :
    ∃ p1 p2, calculate_percentile (.num s1) ⟨some H⟩ = some p1 ∧
      calculate_percentile (.num s2) ⟨some H⟩ = some p2 ∧ p1 ≤ p2 := by
  refine ⟨percentileCore s1 H, percentileCore s2 H, calc_eq_core s1 H hH,
    calc_eq_core s2 H hH, ?_⟩
  unfold percentileCore
  apply round2_mono
  apply min_le_min (le_refl _)
  apply max_le_max (le_refl _)
  have hc : H.countP (fun x => decide (x < s1)) ≤ H.countP (fun x => decide (x < s2)) := by
    apply List.countP_mono_left
    intro a _ ha
    simp only [decide_eq_true_eq] at ha ⊢
    exact lt_trans ha hs
  have hcq : ((H.countP (fun x => decide (x < s1)) : ℕ) : ℚ) ≤
      ((H.countP (fun x => decide (x < s2)) : ℕ) : ℚ) := by
    exact_mod_cast hc
  have hN : (0 : ℚ) ≤ ((H.length : ℕ) : ℚ)⁻¹ := by positivity
  rw [div_eq_mul_inv, div_eq_mul_inv]
  exact mul_le_mul_of_nonneg_right (mul_le_mul_of_nonneg_right hcq hN) (by norm_num)

/-- C7 witness: instantiation at scores 100 and 150 over
`[100, 150, 200, 250]`. -/
theorem C7_witness :
    ∃ p1 p2, calculate_percentile (.num 100) ⟨some [100, 150, 200, 250]⟩ = some p1 ∧
      calculate_percentile (.num 150) ⟨some [100, 150, 200, 250]⟩ = some p2 ∧
      p1 ≤ p2 :=
  C7_monotone_in_score [100, 150, 200, 250] 100 150 (by decide) (by norm_num)

/-- C2 counterexample: on an empty dataset, and on a malformed score, the
source returns the sentinel `None` (the broad `except` catches everything,
and a zero-length column falls through to `return None`); no typed
`EmptyDatasetError` or `InvalidInputError` is raised to the caller. -/
theorem C2_counterexample :
    calculate_percentile (.num 5) ⟨some []⟩ = none ∧
    calculate_percentile (.malformed "abc") ⟨some [10]⟩ = none :=
  ⟨rfl, rfl⟩

/-- C2 amended: `calculate_percentile` answers the sentinel `None` — not a
typed error — for every score on an empty dataset, and for a malformed score
on every dataset. -/
theorem C2_sentinel_none :
    (∀ s : ScoreInput, calculate_percentile s ⟨some []⟩ = none) ∧
    (∀ (msg : String) (hd : HistDataset), calculate_percentile (.malformed msg) hd = none) := by
  constructor
  · intro s
    cases s with
    | num q => rfl
    | malformed m => rfl
  · intro msg hd
    rfl

/-- C9: `calculate_percentile` is total over its embedded input space —
every call returns the sentinel `None` or a value in `[0, 99.99]` that is an
integer number of hundredths (rounded to 2 decimals); no exception escapes
the `try/except`. -/
theorem C9_total_sentinel_or_rounded (s : ScoreInput) (hd : HistDataset) :
    calculate_percentile s hd = none ∨
    ∃ p, calculate_percentile s hd = some p ∧ 0 ≤ p ∧ p ≤ 99.99 ∧
      ∃ n : ℤ, p * 100 = (n : ℚ) := by
  cases s with
  | malformed m => exact Or.inl rfl
  | num q =>
    obtain ⟨mc⟩ := hd
    cases mc with
    | none => exact Or.inl rfl
    | some H =>
      by_cases hH : H = []
      · subst hH
        exact Or.inl rfl
      · refine Or.inr ⟨percentileCore q H, calc_eq_core q H hH,
          (percentileCore_bounds q H).1, (percentileCore_bounds q H).2,
          round ((min 99.99 (max 0
            (((H.countP (fun x => decide (x < q)) : ℚ) / (H.length : ℚ)) * 100))) * 100), ?_⟩
        unfold percentileCore round2
        rw [div_mul_cancel₀ _ (by norm_num : (100 : ℚ) ≠ 0)]

/-- C1 counterexample: with the unrecognized category `"ews"` the source does
not raise any error to its caller — the column lookup's `KeyError` is caught
by the broad `except`, which returns an empty frame. -/
theorem C1_counterexample :
    suggest_colleges 85 "ews" [⟨"A", "CSE", "X", 80, 0, 0, 0⟩] = .ok [] := by
  decide

/-- C1 amended: for every percentile and college dataset, a category outside
the four recognized values makes `suggest_colleges` silently return an empty
result (the `KeyError` is swallowed), not an `UnknownCategoryError`. -/
theorem C1_empty_on_unknown_category (p : ℚ) (category : String)
    (db : List CollegeRecord) (h : pyLower category ∉ recognizedCategories) :
    suggest_colleges p category db = .ok [] := by
  have hf := cutoffField_of_unrecognized h
  simp [suggest_colleges, suggest_colleges_body, hf]

/-- C1 witness: instantiation at the unrecognized category `"foo"`. -/
theorem C1_witness :
    pyLower "foo" ∉ recognizedCategories ∧ suggest_colleges 50 "foo" [] = .ok [] :=
  ⟨by decide, C1_empty_on_unknown_category 50 "foo" [] (by decide)⟩

/-- C3 counterexample: two colleges with the same general cutoff 80 come out
in reversed input order (`B` before `A`), so the claimed stability (equal
cutoffs keep input order) fails. -/
theorem C3_counterexample :
    suggest_colleges 85 "general"
        [⟨"A", "CSE", "X", 80, 0, 0, 0⟩, ⟨"B", "ME", "Y", 80, 0, 0, 0⟩] =
      .ok [⟨"B", "ME", 80, "Y"⟩, ⟨"A", "CSE", 80, "X"⟩] ∧
    ([⟨"B", "ME", 80, "Y"⟩, ⟨"A", "CSE", 80, "X"⟩] : List CollegeProj) ≠
      [⟨"A", "CSE", 80, "X"⟩, ⟨"B", "ME", 80, "Y"⟩] := by
  constructor
  · decide
  · decide

/-- C3 amended: for every percentile, recognized category and dataset the
output is sorted non-strictly descending by the category cutoff, but records
with equal cutoffs appear in reversed input order (pandas reverses an
ascending argsort for `ascending=False`), not in input order. -/
theorem C3_sorted_desc_ties_reversed (p : ℚ) (category : String)
    (db : List CollegeRecord) (h : pyLower category ∈ recognizedCategories) :
    ∃ key l, cutoffField ("cutoff_" ++ pyLower category) = some key ∧
      suggest_colleges p category db = .ok l ∧
      l.Pairwise (fun a b => b.cutoff ≤ a.cutoff) ∧
      ∀ k : ℚ, l.filter (fun r => decide (r.cutoff = k)) =
        (((db.filter (fun c => decide (key c ≤ p))).filter
          (fun c => decide (key c = k))).map (projectRow key)).reverse := by
  obtain ⟨key, hkey⟩ := cutoffField_of_recognized h
  refine ⟨key,
    (pandasSortDesc key (db.filter (fun c => decide (key c ≤ p)))).map (projectRow key),
    hkey, ?_, ?_, ?_⟩
  · simp [suggest_colleges, suggest_colleges_body, hkey]
  · rw [List.pairwise_map]
    exact (pandasSortDesc_pairwise key _).imp (fun hab => hab)
  · intro k
    have hp : ((fun r : CollegeProj => decide (r.cutoff = k)) ∘ projectRow key) =
        (fun c : CollegeRecord => decide (key c = k)) := rfl
    rw [List.filter_map, hp, filter_key_pandasSortDesc, List.map_reverse]

/-- C3 witness: instantiation of the amended theorem at the tie input of the
counterexample. -/
theorem C3_witness :
    ∃ key l, cutoffField ("cutoff_" ++ pyLower "general") = some key ∧
      suggest_colleges 85 "general"
          [⟨"A", "CSE", "X", 80, 0, 0, 0⟩, ⟨"B", "ME", "Y", 80, 0, 0, 0⟩] = .ok l ∧
      l.Pairwise (fun a b => b.cutoff ≤ a.cutoff) ∧
      ∀ k : ℚ, l.filter (fun r => decide (r.cutoff = k)) =
        ((([⟨"A", "CSE", "X", 80, 0, 0, 0⟩,
            ⟨"B", "ME", "Y", 80, 0, 0, 0⟩].filter (fun c => decide (key c ≤ 85))).filter
          (fun c => decide (key c = k))).map (projectRow key)).reverse :=
  C3_sorted_desc_ties_reversed 85 "general"
    [⟨"A", "CSE", "X", 80, 0, 0, 0⟩, ⟨"B", "ME", "Y", 80, 0, 0, 0⟩] (by decide)

/-- C6: for every percentile, recognized category and dataset, no returned
record's category cutoff exceeds the percentile, and when no record
qualifies the result is the empty sequence (still an `ok`, not an error). -/
theorem C6_no_cutoff_exceeds (p : ℚ) (category : String) (db : List CollegeRecord)
    (h : pyLower category ∈ recognizedCategories) :
    ∃ key l, cutoffField ("cutoff_" ++ pyLower category) = some key ∧
      suggest_colleges p category db = .ok l ∧
      (∀ r ∈ l, r.cutoff ≤ p) ∧
      ((∀ c ∈ db, p < key c) → l = []) := by
  obtain ⟨key, hkey⟩ := cutoffField_of_recognized h
  refine ⟨key,
    (pandasSortDesc key (db.filter (fun c => decide (key c ≤ p)))).map (projectRow key),
    hkey, ?_, ?_, ?_⟩
  · simp [suggest_colleges, suggest_colleges_body, hkey]
  · intro r hr
    rw [List.mem_map] at hr
    obtain ⟨c, hc, hrc⟩ := hr
    have hmem := mem_pandasSortDesc hc
    rw [List.mem_filter] at hmem
    have hle : key c ≤ p := by simpa using hmem.2
    rw [← hrc]
    exact hle
  · intro hall
    have hfil : db.filter (fun c => decide (key c ≤ p)) = [] := by
      rw [List.filter_eq_nil_iff]
      intro c hc
      simp only [decide_eq_true_eq]
      exact not_le_of_gt (hall c hc)
    rw [hfil]
    rfl

/-- C6 witness: instantiation at percentile 85, category `"general"`, one
college with cutoff 80. -/
theorem C6_witness :
    ∃ key l, cutoffField ("cutoff_" ++ pyLower "general") = some key ∧
      suggest_colleges 85 "general" [⟨"A", "CSE", "X", 80, 0, 0, 0⟩] = .ok l ∧
      (∀ r ∈ l, r.cutoff ≤ 85) ∧
      ((∀ c ∈ [(⟨"A", "CSE", "X", 80, 0, 0, 0⟩ : CollegeRecord)], (85 : ℚ) < key c) →
        l = []) :=
  C6_no_cutoff_exceeds 85 "general" [⟨"A", "CSE", "X", 80, 0, 0, 0⟩] (by decide)

/-- C10: `suggest_colleges` checks nothing about its percentile argument —
for every numeric percentile (including values below 0 or above 100) and
recognized category it returns the filtered-and-sorted projection with no
error; and whenever the body fails internally the wrapper returns an empty
table instead of raising. -/
theorem C10_no_percentile_validation (p : ℚ) (category : String)
    (db : List CollegeRecord) :
    (pyLower category ∈ recognizedCategories →
      ∃ key, cutoffField ("cutoff_" ++ pyLower category) = some key ∧
        suggest_colleges p category db =
          .ok ((pandasSortDesc key (db.filter (fun c => decide (key c ≤ p)))).map
            (projectRow key))) ∧
    (∀ e, suggest_colleges_body p category db = .error e →
      suggest_colleges p category db = .ok []) := by
  constructor
  · intro h
    obtain ⟨key, hkey⟩ := cutoffField_of_recognized h
    exact ⟨key, hkey, by simp [suggest_colleges, suggest_colleges_body, hkey]⟩
  · intro e he
    simp [suggest_colleges, he]

/-- C10 witness: instantiation at the out-of-range percentile 150. -/
theorem C10_witness :
    ∃ key, cutoffField ("cutoff_" ++ pyLower "general") = some key ∧
      suggest_colleges 150 "general" [⟨"A", "CSE", "X", 95, 0, 0, 0⟩] =
        .ok ((pandasSortDesc key
          ([(⟨"A", "CSE", "X", 95, 0, 0, 0⟩ : CollegeRecord)].filter
            (fun c => decide (key c ≤ 150)))).map (projectRow key)) :=
  (C10_no_percentile_validation 150 "general" [⟨"A", "CSE", "X", 95, 0, 0, 0⟩]).1
    (by decide)

/-- C8: both functions are read-only on their datasets: in the
state-threaded embedding every call leaves the dataset exactly as it found
it and computes the same answer as the pure function. -/
theorem C8_read_only (s : ScoreInput) (hd : HistDataset) (p : ℚ)
    (category : String) (db : List CollegeRecord) :
    (calculate_percentile_run s hd).2 = hd ∧
    (calculate_percentile_run s hd).1 = calculate_percentile s hd ∧
    (suggest_colleges_run p category db).2 = db ∧
    (suggest_colleges_run p category db).1 = suggest_colleges p category db := by
  refine ⟨?_, ?_, ?_, ?_⟩
  · cases s with
    | malformed m => rfl
    | num q =>
      obtain ⟨mc⟩ := hd
      cases mc with
      | none => rfl
      | some H =>
        by_cases hl : 0 < H.length <;>
          simp [calculate_percentile_run, readMarksColumn, parseFloat, hl]
  · cases s with
    | malformed m => rfl
    | num q =>
      obtain ⟨mc⟩ := hd
      cases mc with
      | none => rfl
      | some H =>
        by_cases hl : 0 < H.length <;>
          simp [calculate_percentile_run, readMarksColumn, parseFloat, hl,
            calculate_percentile, calculate_percentile_body]
  · rcases hf : cutoffField ("cutoff_" ++ pyLower category) with _ | key <;>
      simp [suggest_colleges_run, hf]
  · rcases hf : cutoffField ("cutoff_" ++ pyLower category) with _ | key <;>
      simp [suggest_colleges_run, suggest_colleges, suggest_colleges_body, hf, copyFrame]

end MarksPercentile
